import Mathlib

/-!
# Verification of the job-trigger / completion-polling core of the `dot` repository

Shallow embedding of the polling, retry and status-classification logic of
`src/dbt-trigger/dbt_client.py`, `src/dbt-trigger/main.py`,
`src/okta-sync/okta_sync_utils.py` and `src/fivetran-trigger/fivetran_client.py`,
together with theorems settling the specification's claims about that logic.

Modelling conventions:
* HTTP interactions are modelled as streams (`Nat → _`) of the responses the
  remote API returns, indexed by the order in which the code issues requests.
* Loops whose termination depends on the remote API are given an explicit fuel
  parameter; running out of fuel is a distinguished result.
* `time.sleep` calls are recorded in a trace (list of the slept durations in
  seconds), so backoff schedules can be stated exactly.
* Python `None` becomes `Option.none`; a Python function that can raise is
  embedded with an `Except`/sum result type.
-/

namespace Dot

/-! ## dbt run status (`dbt_client.py`)

`DbtClient.determine_run_status` reads `run_details["data"]` and inspects the
three boolean fields `is_complete`, `is_error`, `is_cancelled`. -/

/-- The boolean status fields of a dbt run-details payload (`run_details["data"]`). -/
structure RunStatus where
  is_complete : Bool
  is_error : Bool
  is_cancelled : Bool
deriving DecidableEq, Repr

/-- `DbtClient.determine_run_status` (dbt_client.py lines 44-59), given the
run-details payload it fetched: returns dbt exit code 20 (failed), 30
(cancelled), 10 (success) or 110 (still running). -/
def determine_run_status (s : RunStatus) : Nat :=
  if s.is_complete then
    if s.is_error then 20
    else if s.is_cancelled then 30
    else 10
  else 110

/-- C1: for every run-details payload with `is_complete = false` the computed
outcome is 110 (StillRunning), regardless of `is_error` and `is_cancelled`,
even when those flags are contradictorily set. -/
theorem determine_run_status_incomplete (s : RunStatus)
    (h : s.is_complete = false) : determine_run_status s = 110 := by
  simp [determine_run_status, h]

/-- Witness for C1 at the contradictory payload
`is_complete = false, is_error = true, is_cancelled = true`. -/
theorem determine_run_status_incomplete_witness :
    (RunStatus.mk false true true).is_complete = false ∧
      determine_run_status (RunStatus.mk false true true) = 110 :=
  ⟨rfl, determine_run_status_incomplete (RunStatus.mk false true true) rfl⟩

/-- C2: for every run-details payload with `is_complete = true`: if neither
`is_error` nor `is_cancelled` is set the outcome is 10 (Success); `is_error`
is checked before `is_cancelled`, so any payload with `is_error = true` is
classified 20 (Failure) — a payload setting both flags is never classified
30 (Cancelled). -/
theorem determine_run_status_complete (s : RunStatus)
    (h : s.is_complete = true) :
    ((s.is_error = false ∧ s.is_cancelled = false) →
        determine_run_status s = 10) ∧
      (s.is_error = true → determine_run_status s = 20) ∧
      ((s.is_error = true ∧ s.is_cancelled = true) →
        determine_run_status s ≠ 30) := by
  obtain ⟨c, e, k⟩ := s
  cases c <;> cases e <;> cases k <;> simp_all [determine_run_status]

/-- Witness for C2 at the ambiguous payload setting both terminal flags. -/
theorem determine_run_status_complete_witness :
    ((RunStatus.mk true true true).is_error = true →
        determine_run_status (RunStatus.mk true true true) = 20) ∧
      determine_run_status (RunStatus.mk true true true) = 20 :=
  ⟨(determine_run_status_complete (RunStatus.mk true true true) rfl).2.1,
    (determine_run_status_complete (RunStatus.mk true true true) rfl).2.1 rfl⟩

/-! ## dbt-trigger wait loop (`main.py` lines 106-154)

`trigger_dbt_job` triggers the job once, then — when `wait_for_completion`
is true — loops: fetch run details; if not complete, sleep 30s and loop;
if complete, call `determine_run_status` (which itself fetches the run
details again over HTTP) and raise a `RuntimeError` unless the code is 10. -/

/-- Result of the `while not is_complete` loop of `trigger_dbt_job`. -/
inductive DbtWaitResult
  | success        -- loop finished with exit code 10; the function returns 200
  | runtimeError   -- RuntimeError raised for a non-10 exit code
  | fuelOut
deriving DecidableEq, Repr

/-- The `while not is_complete` loop of `trigger_dbt_job` (main.py lines
116-153).  `polls k` is the payload returned by the k-th GET
`runs/{run_id}/` issued after entering the loop; `i` is the index of the
next such call.  Returns the loop result and the number of run-status HTTP
calls made.  The complete branch performs a second HTTP fetch, because
`determine_run_status` calls `get_run_details` again. -/
def dbt_wait_loop (polls : Nat → RunStatus) (i : Nat) : Nat → DbtWaitResult × Nat
  | 0 => (.fuelOut, 0)
  | fuel + 1 =>
    if (polls i).is_complete then
      if determine_run_status (polls (i + 1)) = 10 then (.success, 2)
      else (.runtimeError, 2)
    else
      let r := dbt_wait_loop polls (i + 1) fuel
      (r.1, r.2 + 1)

/-- `trigger_dbt_job` (main.py lines 106-154) after the single trigger call
succeeded with a run id, with `wait_for_completion = true`: the loop result,
the number of trigger HTTP calls and the number of run-status HTTP calls. -/
def trigger_dbt_job_wait (polls : Nat → RunStatus) (fuel : Nat) :
    DbtWaitResult × Nat × Nat :=
  let r := dbt_wait_loop polls 0 fuel
  (r.1, 1, r.2)

/-- The poll stream of C3's scenario: the first status fetch reports the run
incomplete, every later fetch reports it complete without error. -/
def c3_polls : Nat → RunStatus
  | 0 => RunStatus.mk false false false
  | _ + 1 => RunStatus.mk true false false

/-- Counterexample to C3: in the claimed scenario (first poll incomplete,
every later fetch complete without error) the code makes 3 run-status HTTP
calls, not 2 — `determine_run_status` re-fetches the run details. -/
theorem trigger_dbt_job_two_polls_counterexample :
    trigger_dbt_job_wait c3_polls 5 = (.success, 1, 3) ∧ (3 : Nat) ≠ 2 := by
  constructor
  · rfl
  · decide

/-- C3 amended: when the first status fetch reports the run incomplete and
every later fetch reports it complete without error, the outcome is success
(HTTP 200), with exactly 1 trigger call and exactly 3 run-status HTTP calls
(the loop's two fetches plus the re-fetch inside `determine_run_status`). -/
theorem trigger_dbt_job_success_three_polls (polls : Nat → RunStatus)
    (h0 : (polls 0).is_complete = false)
    (h1 : (polls 1).is_complete = true)
    (h2 : polls 2 = RunStatus.mk true false false) (fuel : Nat) :
    trigger_dbt_job_wait polls (fuel + 2) = (.success, 1, 3) := by
  simp [trigger_dbt_job_wait, dbt_wait_loop, h0, h1, h2, determine_run_status]

/-- Witness for the amended C3 at the concrete scenario stream. -/
theorem trigger_dbt_job_success_three_polls_witness :
    trigger_dbt_job_wait c3_polls 2 = (.success, 1, 3) :=
  trigger_dbt_job_success_three_polls c3_polls rfl rfl rfl 0

/-! ## dbt-trigger entrypoint (`main.py` lines 95-159)

`trigger_dbt_job` extracts `job_id` from the request JSON; the local
variable `wait_for_completion` is assigned only inside the
`if "wait_for_completion" in request_json` branch (from the value's
`.lower()`, which requires a string), and is read unconditionally at
line 114 — an unassigned read raises `UnboundLocalError`, a subclass of
`NameError`, which the `except` block logs and re-raises. -/

/-- A JSON value appearing in the request body. -/
inductive JVal
  | str (s : String)
  | boolean (b : Bool)
deriving DecidableEq, Repr

/-- Outcome of the `trigger_job` call plus the `["data"]["id"]` extraction. -/
inductive TriggerOutcome
  | raised                  -- the trigger request or the extraction raised
  | runId (r : Option Nat)  -- the extracted `job_run_response["data"]["id"]`
deriving DecidableEq, Repr

/-- How one invocation of the `trigger_dbt_job` entrypoint ends. -/
inductive EntryResult
  | ok200                   -- returned ("Trigger dbt job completed", 200)
  | returnedNone            -- bare `return` after `run_id is None`
  | raisedNoJobId           -- bare `raise` in the missing-job_id branch
  | raisedAttributeError    -- `.lower()` on a non-string wait value
  | raisedNameError         -- read of the unassigned local `wait_for_completion`
  | raisedTriggerError      -- exception from the trigger call, re-raised
  | raisedRuntimeError      -- RuntimeError for a non-10 exit code, re-raised
  | fuelOut
deriving DecidableEq, Repr

/-- The `trigger_dbt_job` entrypoint (main.py lines 95-159).
`request_json` is the parsed body (`none` for an unparseable body), `trig`
the outcome of the trigger call, `polls` the stream of run-status payloads
for the wait loop. -/
def trigger_dbt_job_entry (request_json : Option (List (String × JVal)))
    (trig : TriggerOutcome) (polls : Nat → RunStatus) (fuel : Nat) :
    EntryResult :=
  match request_json with
  | none => .raisedNoJobId
  | some j =>
    match j.lookup "job_id" with
    | none => .raisedNoJobId
    | some _ =>
      match j.lookup "wait_for_completion" with
      | some (.boolean _) => .raisedAttributeError
      | w =>
        let wait_var : Option Bool :=
          match w with
          | some (.str s) => some (s.toLower == "true")
          | _ => none
        match trig with
        | .raised => .raisedTriggerError
        | .runId none => .returnedNone
        | .runId (some _) =>
          match wait_var with
          | none => .raisedNameError
          | some false => .ok200
          | some true =>
            match dbt_wait_loop polls 0 fuel with
            | (.success, _) => .ok200
            | (.runtimeError, _) => .raisedRuntimeError
            | (.fuelOut, _) => .fuelOut

/-- C9: a request whose JSON body contains `job_id` but no
`wait_for_completion` key makes the entrypoint raise a NameError when it
evaluates the wait flag (after a successful trigger), rather than default to
not waiting; and the 200 success path is reachable only when
`wait_for_completion` is supplied as a string. -/
theorem trigger_dbt_job_entry_missing_wait_key (j : List (String × JVal))
    (hj : (j.lookup "job_id").isSome = true)
    (hw : j.lookup "wait_for_completion" = none)
    (r : Nat) (polls : Nat → RunStatus) (fuel : Nat) :
    trigger_dbt_job_entry (some j) (.runId (some r)) polls fuel =
        .raisedNameError ∧
      ∀ (req : Option (List (String × JVal))) (trig : TriggerOutcome)
        (fuel2 : Nat),
        trigger_dbt_job_entry req trig polls fuel2 = .ok200 →
        ∃ jj s, req = some jj ∧
          jj.lookup "wait_for_completion" = some (.str s) := by
  obtain ⟨v, hv⟩ := Option.isSome_iff_exists.mp hj
  constructor
  · simp [trigger_dbt_job_entry, hv, hw]
  · intro req trig fuel2 h
    match req with
    | none => simp [trigger_dbt_job_entry] at h
    | some jj =>
      refine ⟨jj, ?_⟩
      simp only [trigger_dbt_job_entry] at h
      rcases hjj : jj.lookup "job_id" with _ | v2
      · rw [hjj] at h; simp at h
      · rw [hjj] at h
        rcases hww : jj.lookup "wait_for_completion" with _ | wv
        · rw [hww] at h
          rcases trig with _ | ⟨_ | r2⟩ <;> simp_all
        · rcases wv with s | b
          · exact ⟨s, rfl, rfl⟩
          · rw [hww] at h; simp at h

/-- Witness for C9: body `{"job_id": "42"}` with a successful trigger raises
the NameError, and at the proved implication's inputs the 200 outcome indeed
implies a string wait value. -/
theorem trigger_dbt_job_entry_missing_wait_key_witness :
    trigger_dbt_job_entry (some [("job_id", JVal.str "42")])
        (.runId (some 7)) c3_polls 5 = .raisedNameError :=
  (trigger_dbt_job_entry_missing_wait_key [("job_id", JVal.str "42")] rfl rfl
    7 c3_polls 5).1

/-! ## okta-sync `get_request` (`okta_sync_utils.py` lines 72-181)

`get_request` issues GETs in a `while retries <= max_retries` loop.  A 429
enters a nested `while True` loop that sleeps an exponentially doubling
delay (starting at 1 second) before each re-issue and never touches the
`retries` counter; invalid-JSON bodies, non-429 HTTP errors, timeouts,
connection errors and general request errors increment `retries` and sleep a
class-specific fixed delay.  Falling out of the outer loop returns `None`. -/

/-- Classification of one HTTP exchange as observed by `get_request`. -/
inductive HttpResp
  | okJson              -- raise_for_status passes and the body parses as JSON
  | okBadJson           -- raise_for_status passes, body is not valid JSON
  | http429             -- HTTPError with status 429
  | httpOther (code : Nat) -- HTTPError with a status other than 429
  | timedOut            -- requests.exceptions.Timeout
  | connError           -- requests.exceptions.ConnectionError
  | reqError            -- other requests.exceptions.RequestException
deriving DecidableEq, Repr

/-- How the nested 429 `while True` loop ends. -/
inductive InnerExit
  | gotResponse  -- `return r`
  | badJson      -- invalid JSON: `retries += 1`, 300s sleep, `break` to the outer loop
  | raised       -- a non-HTTPError exception, uncaught inside the nested loop
  | fuelOut
deriving DecidableEq, Repr

/-- The nested 429 retry loop (okta_sync_utils.py lines 130-159): sleep
`delay`, re-issue the GET, double `delay` on a further HTTP error.  `i` is
the index of the next response in the stream.  Returns the trace of slept
durations, the exit kind and the next response index. -/
def rate_limit_loop (responses : Nat → HttpResp) (i delay : Nat) :
    Nat → List Nat × InnerExit × Nat
  | 0 => ([], .fuelOut, i)
  | fuel + 1 =>
    match responses i with
    | .okJson => ([delay], .gotResponse, i + 1)
    | .okBadJson => ([delay, 300], .badJson, i + 1)
    | .http429 =>
      let r := rate_limit_loop responses (i + 1) (delay * 2) fuel
      (delay :: r.1, r.2)
    | .httpOther _ =>
      let r := rate_limit_loop responses (i + 1) (delay * 2) fuel
      (delay :: r.1, r.2)
    | _ => ([delay], .raised, i + 1)

/-- How `get_request` as a whole ends. -/
inductive GetResult
  | gotResponse  -- returned the response object
  | exhausted    -- fell out of the outer loop: returns None
  | raised       -- an exception escaped `get_request`
  | fuelOut
deriving DecidableEq, Repr

/-- The outer `while retries <= max_retries` loop of `get_request`
(okta_sync_utils.py lines 112-181).  Returns the trace of slept durations,
the result and the next response index (= number of requests issued so far
when starting from index 0). -/
def get_request_loop (responses : Nat → HttpResp) (max_retries : Nat)
    (i retries : Nat) : Nat → List Nat × GetResult × Nat
  | 0 => ([], .fuelOut, i)
  | fuel + 1 =>
    if retries ≤ max_retries then
      match responses i with
      | .okJson => ([], .gotResponse, i + 1)
      | .okBadJson =>
        let r := get_request_loop responses max_retries (i + 1) (retries + 1) fuel
        (300 :: r.1, r.2)
      | .http429 =>
        let r := rate_limit_loop responses (i + 1) 1 fuel
        match r.2.1 with
        | .gotResponse => (r.1, .gotResponse, r.2.2)
        | .badJson =>
          let r2 := get_request_loop responses max_retries r.2.2 (retries + 1) fuel
          (r.1 ++ r2.1, r2.2)
        | .raised => (r.1, .raised, r.2.2)
        | .fuelOut => (r.1, .fuelOut, r.2.2)
      | .httpOther _ =>
        let r := get_request_loop responses max_retries (i + 1) (retries + 1) fuel
        (180 :: r.1, r.2)
      | .timedOut =>
        let r := get_request_loop responses max_retries (i + 1) (retries + 1) fuel
        (60 :: r.1, r.2)
      | .connError =>
        let r := get_request_loop responses max_retries (i + 1) (retries + 1) fuel
        (60 :: r.1, r.2)
      | .reqError =>
        let r := get_request_loop responses max_retries (i + 1) (retries + 1) fuel
        (300 :: r.1, r.2)
    else ([], .exhausted, i)

/-- `get_request` (okta_sync_utils.py lines 72-181): the outer loop is
entered with `retries = 0` at response index 0. -/
def get_request (responses : Nat → HttpResp) (max_retries fuel : Nat) :
    List Nat × GetResult × Nat :=
  get_request_loop responses max_retries 0 0 fuel

/-- The response stream in which every request hits the rate limit. -/
def all429 : Nat → HttpResp := fun _ => .http429

/-- Nested-loop trace on an all-429 stream: every retry sleeps the doubled
delay and the loop only stops by running out of fuel. -/
theorem rate_limit_loop_all429 (n : Nat) :
    ∀ i d, rate_limit_loop all429 i d n =
      ((List.range n).map fun k => d * 2 ^ k, .fuelOut, i + n) := by
  induction n with
  | zero => intro i d; simp [rate_limit_loop]
  | succ n ih =>
    intro i d
    have hfun : ((List.range n).map fun k => d * 2 * 2 ^ k)
        = (List.range n).map fun k => d * 2 ^ (k + 1) := by
      apply List.map_congr_left
      intro a _
      ring
    simp only [rate_limit_loop, all429, ih (i + 1) (d * 2), hfun, Prod.mk.injEq]
    refine ⟨?_, trivial, by omega⟩
    simp [List.range_succ_eq_map, List.map_map, Function.comp_def, pow_succ]


/-- `get_request` on the all-429 stream with `n + 1` fuel: the initial
attempt hits the rate limit, the nested loop then sleeps `2 ^ k` seconds
before its k-th retry and never stops by itself. -/
theorem get_request_all429 (m n : Nat) :
    get_request all429 m (n + 1) =
      ((List.range n).map fun k => 2 ^ k, .fuelOut, 1 + n) := by
  simp [get_request, get_request_loop, all429, rate_limit_loop_all429 n 1 1]

/-- On the all-429 stream `get_request` never finishes on its own — in
particular it never reports retries exhausted, whatever the fuel. -/
theorem get_request_all429_fuelOut (m : Nat) :
    ∀ fuel, (get_request all429 m fuel).2.1 = GetResult.fuelOut
  | 0 => rfl
  | n + 1 => by rw [get_request_all429 m n]

/-- C4: on consecutive 429 responses, the delay slept before the k-th retry
is `1 * 2 ^ (k-1)` seconds (indexing the first retry as k = 1; here the
trace is 0-indexed, so entry k holds `2 ^ k`); the delay sequence is
monotonically non-decreasing; and no retry cap ever stops the 429 retries:
for every fuel the loop is still retrying, never returning exhausted. -/
theorem get_request_429_backoff (m n : Nat) :
    (∀ k, k < n → ((get_request all429 m (n + 1)).1)[k]? = some (2 ^ k)) ∧
      (∀ (j k dj dk : Nat), j ≤ k →
        ((get_request all429 m (n + 1)).1)[j]? = some dj →
        ((get_request all429 m (n + 1)).1)[k]? = some dk → dj ≤ dk) ∧
      ∀ fuel, (get_request all429 m fuel).2.1 = GetResult.fuelOut := by
  have htr : (get_request all429 m (n + 1)).1
      = (List.range n).map fun k => (2 : Nat) ^ k := by
    rw [get_request_all429]
  have hget : ∀ k, k < n →
      ((get_request all429 m (n + 1)).1)[k]? = some (2 ^ k) := by
    intro k hk
    rw [htr]
    simp [List.getElem?_map, List.getElem?_range, hk]
  refine ⟨hget, ?_, get_request_all429_fuelOut m⟩
  intro j k dj dk hjk hj hk
  have hklen : k < n := by
    by_contra hc
    rw [htr, List.getElem?_eq_none (by simpa using Nat.le_of_not_lt hc)] at hk
    exact Option.noConfusion hk
  have hjlen : j < n := lt_of_le_of_lt hjk hklen
  rw [hget j hjlen] at hj
  rw [hget k hklen] at hk
  obtain rfl : dj = 2 ^ j := (Option.some.injEq _ _ ▸ hj).symm
  obtain rfl : dk = 2 ^ k := (Option.some.injEq _ _ ▸ hk).symm
  exact Nat.pow_le_pow_right (by norm_num) hjk

/-- Witness for C4: with max_retries 5 and 4 units of fuel the trace's third
entry is a 4-second sleep, and with 9 units of fuel the all-429 run is still
going (not exhausted). -/
theorem get_request_429_backoff_witness :
    ((get_request all429 5 4).1)[2]? = some 4 ∧
      (get_request all429 5 9).2.1 = GetResult.fuelOut :=
  ⟨by simpa using (get_request_429_backoff 5 3).1 2 (by norm_num),
    (get_request_429_backoff 5 3).2.2 9⟩

/-- The transient failure classes named by the spec other than 429: invalid
JSON body, timeout, connection error.  Each increments `retries`. -/
def isOtherTransient : HttpResp → Bool
  | .okBadJson => true
  | .timedOut => true
  | .connError => true
  | _ => false

/-- On a stream of non-429 transient failures, the outer loop stops as
exhausted after exactly `max_retries + 1 - retries` further attempts. -/
theorem get_request_loop_transient (responses : Nat → HttpResp) (m : Nat)
    (h : ∀ k, isOtherTransient (responses k) = true) :
    ∀ (fuel i retries : Nat), m + 1 - retries < fuel →
      (get_request_loop responses m i retries fuel).2.1 =
          GetResult.exhausted ∧
        (get_request_loop responses m i retries fuel).2.2 =
          i + (m + 1 - retries) := by
  intro fuel
  induction fuel with
  | zero => intro i retries hf; omega
  | succ fuel ih =>
    intro i retries hf
    by_cases hr : retries ≤ m
    · have hk := h i
      cases hri : responses i <;> rw [hri] at hk <;>
        simp only [isOtherTransient] at hk
      · exact absurd hk (by simp)
      · have hrec := ih (i + 1) (retries + 1) (by omega)
        simp only [get_request_loop, hri, if_pos hr]
        exact ⟨hrec.1, by rw [hrec.2]; omega⟩
      · exact absurd hk (by simp)
      · exact absurd hk (by simp)
      · have hrec := ih (i + 1) (retries + 1) (by omega)
        simp only [get_request_loop, hri, if_pos hr]
        exact ⟨hrec.1, by rw [hrec.2]; omega⟩
      · have hrec := ih (i + 1) (retries + 1) (by omega)
        simp only [get_request_loop, hri, if_pos hr]
        exact ⟨hrec.1, by rw [hrec.2]; omega⟩
      · exact absurd hk (by simp)
    · simp only [get_request_loop, if_neg hr]
      exact ⟨by trivial, by omega⟩

/-- C5: on the non-429 transient classes (timeout, connection error,
invalid JSON body) the retry count is bounded by `max_retries` (default 5):
after `max_retries + 1` attempts `get_request` stops and surfaces the
retries-exhausted failure (returns `None`) instead of retrying forever. -/
theorem get_request_transient_retries_bounded (responses : Nat → HttpResp)
    (m fuel : Nat) (h : ∀ k, isOtherTransient (responses k) = true)
    (hf : m + 1 < fuel) :
    (get_request responses m fuel).2.1 = GetResult.exhausted ∧
      (get_request responses m fuel).2.2 = m + 1 := by
  have hmain := get_request_loop_transient responses m h fuel 0 0 (by omega)
  simpa [get_request] using hmain

/-- The response stream in which every request times out. -/
def allTimedOut : Nat → HttpResp := fun _ => .timedOut

/-- Witness for C5: all-timeout stream, default max_retries 5: exhausted
after exactly 6 attempts. -/
theorem get_request_transient_retries_bounded_witness :
    (get_request allTimedOut 5 7).2.1 = GetResult.exhausted ∧
      (get_request allTimedOut 5 7).2.2 = 6 :=
  get_request_transient_retries_bounded allTimedOut 5 7 (fun _ => rfl)
    (by norm_num)

/-- Nested-loop trace when the stream serves 429 at positions `j..j+t-1` and
a valid JSON response at position `j+t`. -/
theorem rate_limit_loop_429_run (responses : Nat → HttpResp) :
    ∀ (t j d fuel : Nat),
      (∀ k, j ≤ k → k < j + t → responses k = .http429) →
      responses (j + t) = .okJson → t < fuel →
      rate_limit_loop responses j d fuel =
        ((List.range (t + 1)).map fun k => d * 2 ^ k,
          InnerExit.gotResponse, j + t + 1) := by
  intro t
  induction t with
  | zero =>
    intro j d fuel h1 h2 hf
    obtain ⟨f, rfl⟩ : ∃ f, fuel = f + 1 := ⟨fuel - 1, by omega⟩
    simp only [Nat.add_zero] at h2
    simp [rate_limit_loop, h2, List.range_succ]
  | succ t ih =>
    intro j d fuel h1 h2 hf
    obtain ⟨f, rfl⟩ : ∃ f, fuel = f + 1 := ⟨fuel - 1, by omega⟩
    have h429 : responses j = .http429 := h1 j le_rfl (by omega)
    have hrec := ih (j + 1) (d * 2) f
      (fun k hk1 hk2 => h1 k (by omega) (by omega))
      (by rw [show j + 1 + t = j + (t + 1) by omega]; exact h2)
      (by omega)
    have hfun : ((List.range (t + 1)).map fun k => d * 2 * 2 ^ k)
        = (List.range (t + 1)).map fun k => d * 2 ^ (k + 1) := by
      apply List.map_congr_left
      intro a _
      ring
    simp only [rate_limit_loop, h429, hrec, hfun, Prod.mk.injEq]
    refine ⟨?_, trivial, by omega⟩
    simp [List.range_succ_eq_map, List.map_map, Function.comp_def, pow_succ]

/-- Two successive poll calls, each one invocation of `get_request` on its
own response stream (`retries` and `delay` are local to each invocation). -/
def two_polls (r1 r2 : Nat → HttpResp) (m fuel : Nat) :
    (List Nat × GetResult × Nat) × (List Nat × GetResult × Nat) :=
  (get_request r1 m fuel, get_request r2 m fuel)

/-- C6: a poll that suffers N consecutive transient (429) failures and then
succeeds leaves no residue: the next poll's first backoff delay is the base
1 second again — the retry counter and delay restart from scratch, not from
the previously reached `2 ^ (N-1)`. -/
theorem get_request_backoff_resets (r1 r2 : Nat → HttpResp) (m N fuel : Nat)
    (hN : 1 ≤ N)
    (h1 : ∀ k, k < N → r1 k = .http429)
    (hs : r1 N = .okJson)
    (h2a : r2 0 = .http429) (h2b : r2 1 = .okJson)
    (hf : N + 1 ≤ fuel) :
    (two_polls r1 r2 m fuel).1 =
      ((List.range N).map fun k => 2 ^ k, GetResult.gotResponse, N + 1) ∧
      (two_polls r1 r2 m fuel).2 = ([1], GetResult.gotResponse, 2) := by
  obtain ⟨f, rfl⟩ : ∃ f, fuel = f + 1 + 1 := ⟨fuel - 2, by omega⟩
  constructor
  · have h429 : r1 0 = .http429 := h1 0 (by omega)
    have hrun := rate_limit_loop_429_run r1 (N - 1) 1 1 (f + 1)
      (fun k hk1 hk2 => h1 k (by omega))
      (by rw [show 1 + (N - 1) = N by omega]; exact hs)
      (by omega)
    rw [show N - 1 + 1 = N by omega] at hrun
    simp only [two_polls, get_request, get_request_loop, h429, hrun]
    simp only [Nat.zero_le, if_pos, Prod.mk.injEq]
    refine ⟨by simp, trivial, by omega⟩
  · have hrun := rate_limit_loop_429_run r2 0 1 1 (f + 1)
      (fun k hk1 hk2 => by omega)
      (by simpa using h2b)
      (by omega)
    simp only [two_polls, get_request, get_request_loop, h2a, hrun]
    simp [List.range_succ]

/-- The first poll's stream for the C6 witness: three 429s then success. -/
def c6_first : Nat → HttpResp := fun k => if k < 3 then .http429 else .okJson

/-- The second poll's stream for the C6 witness: one 429 then success. -/
def c6_second : Nat → HttpResp := fun k => if k = 0 then .http429 else .okJson

/-- Witness for C6: after a poll with three 429s (delays 1, 2, 4) and a
success, the next poll's single 429 is retried after the base 1 second. -/
theorem get_request_backoff_resets_witness :
    (two_polls c6_first c6_second 5 4).1 =
        ([1, 2, 4], GetResult.gotResponse, 4) ∧
      (two_polls c6_first c6_second 5 4).2 = ([1], GetResult.gotResponse, 2) := by
  have h := get_request_backoff_resets c6_first c6_second 5 3 4 (by norm_num)
    (fun k hk => by simp [c6_first, hk]) rfl rfl rfl (by norm_num)
  simpa using h

/-! ## okta-sync `dbt_run` (`okta_sync_utils.py` lines 529-599)

`dbt_run` triggers the job inside a `while retries <= max_retries` loop,
then polls `get_dbt_run_status` every 30s.  Status 10 returns; status 20/30
breaks the polling loop and — while `retries < max_retries` — re-enters the
outer loop, triggering the job again. -/

/-- How the inner `while True` status-polling loop of `dbt_run` ends. -/
inductive DbtPollExit
  | succeeded    -- status 10: return
  | failedFinal  -- status 20/30 with retries exhausted: return
  | retryBreak   -- status 20/30 with retries < max: retries += 1, re-trigger
  | fuelOut
deriving DecidableEq, Repr

/-- The inner polling loop of `dbt_run` (okta_sync_utils.py lines 568-595).
`statuses pi` is the dbt status returned by the pi-th `get_dbt_run_status`
call.  Returns the exit kind and the next status index. -/
def dbt_poll_loop (statuses : Nat → Nat) (max_retries retries pi : Nat) :
    Nat → DbtPollExit × Nat
  | 0 => (.fuelOut, pi)
  | fuel + 1 =>
    let status := statuses pi
    if status = 10 then (.succeeded, pi + 1)
    else if status = 20 ∨ status = 30 then
      if retries < max_retries then (.retryBreak, pi + 1)
      else (.failedFinal, pi + 1)
    else dbt_poll_loop statuses max_retries retries (pi + 1) fuel

/-- How `dbt_run` as a whole ends. -/
inductive DbtRunOutcome
  | success      -- "dbt job run completed successfully"
  | failedFinal  -- "dbt job ... after max_retries retries", return
  | exhausted    -- fell out of the outer loop
  | fuelOut
deriving DecidableEq, Repr

/-- The outer `while retries <= max_retries` loop of `dbt_run`
(okta_sync_utils.py lines 558-599).  `trig ti` tells whether the ti-th
`trigger_dbt_job` call returns a run id.  Returns the outcome, the next
trigger index and the next status index (so, starting from 0, the number of
trigger calls and of status polls made). -/
def dbt_run_loop (trig : Nat → Bool) (statuses : Nat → Nat)
    (max_retries retries ti pi : Nat) : Nat → DbtRunOutcome × Nat × Nat
  | 0 => (.fuelOut, ti, pi)
  | fuel + 1 =>
    if retries ≤ max_retries then
      if trig ti then
        match dbt_poll_loop statuses max_retries retries pi fuel with
        | (.succeeded, pi2) => (.success, ti + 1, pi2)
        | (.failedFinal, pi2) => (.failedFinal, ti + 1, pi2)
        | (.retryBreak, pi2) =>
          dbt_run_loop trig statuses max_retries (retries + 1) (ti + 1) pi2 fuel
        | (.fuelOut, pi2) => (.fuelOut, ti + 1, pi2)
      else
        dbt_run_loop trig statuses max_retries (retries + 1) (ti + 1) pi fuel
    else (.exhausted, ti, pi)

/-- `dbt_run` (okta_sync_utils.py lines 529-599): outer loop entered with
`retries = 0`. -/
def dbt_run (trig : Nat → Bool) (statuses : Nat → Nat)
    (max_retries fuel : Nat) : DbtRunOutcome × Nat × Nat :=
  dbt_run_loop trig statuses max_retries 0 0 0 fuel

/-- Counterexample to C7: with the default `max_retries = 3`, every trigger
succeeding and every status poll reporting 20 (Failed), `dbt_run` issues 4
trigger calls and 4 status polls in one invocation — after the very first
poll maps the run to Failed, the same job is triggered anew three times,
contradicting "no further polling occurs and no new trigger of the same job
is issued within the same invocation". -/
theorem dbt_run_retriggers_counterexample :
    dbt_run (fun _ => true) (fun _ => 20) 3 10 =
        (DbtRunOutcome.failedFinal, 4, 4) ∧ (4 : Nat) ≠ 1 := by
  constructor
  · rfl
  · decide

/-- One step of the polling loop on a status-20 payload. -/
theorem dbt_poll_loop_20 (statuses : Nat → Nat) (m retries pi g : Nat)
    (h : statuses pi = 20) :
    dbt_poll_loop statuses m retries pi (g + 1) =
      (if retries < m then (.retryBreak, pi + 1) else (.failedFinal, pi + 1)) := by
  simp [dbt_poll_loop, h]

/-- One-step unfolding of the outer loop of `dbt_run`. -/
theorem dbt_run_loop_succ (trig : Nat → Bool) (statuses : Nat → Nat)
    (m retries ti pi fuel : Nat) :
    dbt_run_loop trig statuses m retries ti pi (fuel + 1) =
      if retries ≤ m then
        if trig ti then
          match dbt_poll_loop statuses m retries pi fuel with
          | (.succeeded, pi2) => (.success, ti + 1, pi2)
          | (.failedFinal, pi2) => (.failedFinal, ti + 1, pi2)
          | (.retryBreak, pi2) =>
            dbt_run_loop trig statuses m (retries + 1) (ti + 1) pi2 fuel
          | (.fuelOut, pi2) => (.fuelOut, ti + 1, pi2)
        else dbt_run_loop trig statuses m (retries + 1) (ti + 1) pi fuel
      else (.exhausted, ti, pi) := rfl

/-- All-failed statuses: each run is polled once, the job is re-triggered
until `retries` reaches `max_retries`, then `dbt_run` returns. -/
theorem dbt_run_loop_all20 (trig : Nat → Bool) (statuses : Nat → Nat)
    (m : Nat) (htrig : ∀ k, trig k = true) (hst : ∀ k, statuses k = 20) :
    ∀ (fuel retries ti pi : Nat), retries ≤ m → m - retries + 1 < fuel →
      dbt_run_loop trig statuses m retries ti pi fuel =
        (.failedFinal, ti + (m - retries) + 1, pi + (m - retries) + 1) := by
  intro fuel
  induction fuel with
  | zero => intro retries ti pi hr hf; omega
  | succ fuel ih =>
    intro retries ti pi hr hf
    obtain ⟨g, rfl⟩ : ∃ g, fuel = g + 1 := ⟨fuel - 1, by omega⟩
    rw [dbt_run_loop_succ, if_pos hr, if_pos (htrig ti),
      dbt_poll_loop_20 statuses m retries pi g (hst pi)]
    by_cases hlt : retries < m
    · have hrec := ih (retries + 1) (ti + 1) (pi + 1) (by omega) (by omega)
      rw [if_pos hlt]
      dsimp only
      rw [hrec]
      simp only [Prod.mk.injEq]
      refine ⟨trivial, by omega, by omega⟩
    · rw [if_neg hlt]
      dsimp only
      simp only [Prod.mk.injEq]
      refine ⟨trivial, by omega, by omega⟩

/-- C7 amended: Success is terminal — in `dbt_run` a first poll reporting 10
returns at once, with exactly one trigger call and one status poll; in the
dbt-trigger wait loop a completed run whose re-fetched status is not 10
raises RuntimeError immediately, with no further polls beyond the two HTTP
fetches already made.  But in `dbt_run` a status mapping to 20 ends only the
polling of the current run: the job is re-triggered, so with every status
poll reporting 20 and `max_retries = m` the invocation makes `m + 1` trigger
calls and `m + 1` status polls before returning. -/
theorem dbt_run_terminal_behaviour (trig : Nat → Bool) (statuses : Nat → Nat)
    (polls : Nat → RunStatus) (m fuel : Nat) (htrig : ∀ k, trig k = true) :
    (statuses 0 = 10 → 2 ≤ fuel →
        dbt_run trig statuses m fuel = (.success, 1, 1)) ∧
      ((∀ k, statuses k = 20) → m + 2 ≤ fuel →
        dbt_run trig statuses m fuel = (.failedFinal, m + 1, m + 1)) ∧
      ((polls 0).is_complete = true → determine_run_status (polls 1) ≠ 10 →
        ∀ f2, trigger_dbt_job_wait polls (f2 + 1) = (.runtimeError, 1, 2)) := by
  refine ⟨?_, ?_, ?_⟩
  · intro h10 hfuel
    obtain ⟨f, rfl⟩ : ∃ f, fuel = f + 1 + 1 := ⟨fuel - 2, by omega⟩
    simp [dbt_run, dbt_run_loop, htrig 0, dbt_poll_loop, h10]
  · intro h20 hfuel
    have := dbt_run_loop_all20 trig statuses m htrig h20 fuel 0 0 0
      (by omega) (by omega)
    simpa [dbt_run] using this
  · intro hc hne f2
    simp [trigger_dbt_job_wait, dbt_wait_loop, hc, hne]

/-- Witness for the amended C7: a first-poll success stops after one trigger
and one poll; all-failed statuses with `max_retries = 3` give 4 triggers and
4 polls. -/
theorem dbt_run_terminal_behaviour_witness :
    dbt_run (fun _ => true) (fun _ => 10) 3 5 = (DbtRunOutcome.success, 1, 1) ∧
      dbt_run (fun _ => true) (fun _ => 20) 3 10 =
        (DbtRunOutcome.failedFinal, 4, 4) :=
  ⟨(dbt_run_terminal_behaviour (fun _ => true) (fun _ => 10) c3_polls 3 5
      (fun _ => rfl)).1 rfl (by norm_num),
    (dbt_run_terminal_behaviour (fun _ => true) (fun _ => 20) c3_polls 3 10
      (fun _ => rfl)).2.1 (fun _ => rfl) (by norm_num)⟩

/-! ## HTTP error mapping of the two trigger clients

`DbtClient._request` (dbt_client.py lines 17-30) returns `response.json()`
when `response.ok` (status < 400) and otherwise falls off the end of the
`try` block, returning `None`; it calls no `raise_for_status` and maps no
status code to a typed error.  `FivetranClient._request`
(fivetran_client.py lines 45-99) calls `raise_for_status` and maps the
caught error to an `ExitCodeException` carrying a numeric exit code. -/

/-- A completed HTTP response as `DbtClient._request` sees it; `body` stands
for the parsed JSON payload. -/
structure DbtHttpResponse where
  status_code : Nat
  body : String
deriving DecidableEq, Repr

/-- The one way the dbt `_request` can raise: re-raising an exception from
`requests.request` itself (network failure, not a completed response). -/
inductive PyRaise
  | raised
deriving DecidableEq, Repr

/-- `DbtClient._request` (dbt_client.py lines 17-30) on a completed
response: `response.ok` (status < 400) returns the JSON body, any other
completed response falls through and returns `None` — no exception. -/
def dbt_client_request (resp : DbtHttpResponse) :
    Except PyRaise (Option String) :=
  if resp.status_code < 400 then .ok (some resp.body) else .ok none

/-- A completed Fivetran API response: status code plus the `code` and
`message` fields of its JSON body. -/
structure FivetranResponse where
  status_code : Nat
  code : Option String
  message : Option String
deriving DecidableEq, Repr

/-- `FivetranClient.EXIT_CODE_INVALID_CREDENTIALS` (fivetran_client.py). -/
def EXIT_CODE_INVALID_CREDENTIALS : Nat := 200

/-- `FivetranClient.EXIT_CODE_BAD_REQUEST` (fivetran_client.py). -/
def EXIT_CODE_BAD_REQUEST : Nat := 201

/-- `FivetranClient.EXIT_CODE_SYNC_REFRESH_ERROR` (fivetran_client.py). -/
def EXIT_CODE_SYNC_REFRESH_ERROR : Nat := 202

/-- `FivetranClient.EXIT_CODE_SYNC_INVALID_SOURCE_ID` (fivetran_client.py). -/
def EXIT_CODE_SYNC_INVALID_SOURCE_ID : Nat := 204

/-- `FivetranClient.EXIT_CODE_UNKNOWN_ERROR` (fivetran_client.py). -/
def EXIT_CODE_UNKNOWN_ERROR : Nat := 249

/-- `FivetranClient._request` (fivetran_client.py lines 45-99) on a
completed response: `raise_for_status` raises for status ≥ 400, and the
handler checks, in order, status 401, body code "NotFound_Integration",
status 400, else unknown; otherwise the JSON payload is returned. -/
def fivetran_request (resp : FivetranResponse) : Except Nat FivetranResponse :=
  if resp.status_code < 400 then .ok resp
  else if resp.status_code = 401 then .error EXIT_CODE_INVALID_CREDENTIALS
  else if resp.code = some "NotFound_Integration" then
    .error EXIT_CODE_SYNC_INVALID_SOURCE_ID
  else if resp.status_code = 400 then .error EXIT_CODE_BAD_REQUEST
  else .error EXIT_CODE_UNKNOWN_ERROR

/-- The 401 response used to refute C8 for the dbt client. -/
def c8_resp401 : DbtHttpResponse := DbtHttpResponse.mk 401 "{}"

/-- Counterexample to C8: `DbtClient._request` on a 401 response returns the
normal value `None` — no typed AuthError, no exception — contradicting
"never returns a normal (non-error) value for a non-2xx response". -/
theorem dbt_request_401_counterexample :
    dbt_client_request c8_resp401 = .ok none ∧
      dbt_client_request c8_resp401 ≠ .error .raised := by
  constructor
  · rfl
  · simp [dbt_client_request, c8_resp401]

/-- C8 amended: only the Fivetran client implements the typed mapping —
`FivetranClient._request` turns every status ≥ 400 into an
ExitCodeException (401 → invalid credentials 200; body code
"NotFound_Integration" → invalid source id 204; status 400 → bad request
201; anything else → unknown error 249, the body-code check preceding the
400 check) and never returns a normal value for such a response.
`DbtClient._request`, by contrast, returns `None` (a normal value, no typed
error) for every response with status ≥ 400, and a 2xx body lacking the run
id is not mapped to a MalformedResponseError by either client. -/
theorem trigger_error_mapping (resp : FivetranResponse)
    (dresp : DbtHttpResponse) :
    (400 ≤ resp.status_code →
        (resp.status_code = 401 →
            fivetran_request resp = .error EXIT_CODE_INVALID_CREDENTIALS) ∧
          (resp.code = some "NotFound_Integration" →
            resp.status_code ≠ 401 →
            fivetran_request resp = .error EXIT_CODE_SYNC_INVALID_SOURCE_ID) ∧
          (resp.status_code = 400 → resp.code ≠ some "NotFound_Integration" →
            fivetran_request resp = .error EXIT_CODE_BAD_REQUEST) ∧
          (resp.status_code ≠ 401 → resp.status_code ≠ 400 →
            resp.code ≠ some "NotFound_Integration" →
            fivetran_request resp = .error EXIT_CODE_UNKNOWN_ERROR) ∧
          ∀ b, fivetran_request resp ≠ .ok b) ∧
      (400 ≤ dresp.status_code → dbt_client_request dresp = .ok none) := by
  constructor
  · intro h400
    have hnot : ¬ resp.status_code < 400 := by omega
    refine ⟨?_, ?_, ?_, ?_, ?_⟩
    · intro h401
      simp [fivetran_request, hnot, h401]
    · intro hcode h401
      simp [fivetran_request, hnot, h401, hcode]
    · intro h400eq hcode
      simp [fivetran_request, hnot, h400eq, hcode]
    · intro h401 h400eq hcode
      simp [fivetran_request, hnot, h401, h400eq, hcode]
    · intro b hok
      simp only [fivetran_request, if_neg hnot] at hok
      split at hok <;> try exact Except.noConfusion hok
      split at hok <;> try exact Except.noConfusion hok
      split at hok <;> exact Except.noConfusion hok
  · intro hd
    have hnot : ¬ dresp.status_code < 400 := by omega
    simp [dbt_client_request, hnot]

/-- Witness for the amended C8: a 404 with body code "NotFound_Integration"
maps to exit code 204; a dbt 500 response returns `None`. -/
theorem trigger_error_mapping_witness :
    fivetran_request
        (FivetranResponse.mk 404 (some "NotFound_Integration") none) =
        .error EXIT_CODE_SYNC_INVALID_SOURCE_ID ∧
      dbt_client_request (DbtHttpResponse.mk 500 "{}") = .ok none :=
  ⟨((trigger_error_mapping
        (FivetranResponse.mk 404 (some "NotFound_Integration") none)
        (DbtHttpResponse.mk 500 "{}")).1 (by norm_num)).2.1 rfl (by norm_num),
    (trigger_error_mapping
        (FivetranResponse.mk 404 (some "NotFound_Integration") none)
        (DbtHttpResponse.mk 500 "{}")).2 (by norm_num)⟩

/-! ## Fivetran `trigger_sync` wait loop (`fivetran_client.py` lines 101-163)

With `wait_for_completion`, `trigger_sync` snapshots
`_get_latest_success_and_failure` (the connector's `succeeded_at` /
`failed_at` pair) before triggering, then loops while both components still
equal the snapshot, re-fetching after each `poke_interval` sleep; once a
fetch differs it raises `ExitCodeException(..., 202)` exactly when a new
failure is detected, else returns normally. -/

/-- The `while prev_success == new_success and prev_failure == new_failure`
loop (fivetran_client.py lines 144-150).  `details k` is the pair returned
by the k-th `_get_latest_success_and_failure` HTTP call (the 0-th is the
pre-trigger snapshot, the loop starts at index `i = 1`).  Returns the first
fetched pair differing from `prev` (`none` if fuel ran out) and the number
of in-loop fetches made. -/
def fivetran_wait_loop (prev : Option String × Option String)
    (details : Nat → Option String × Option String) (i : Nat) :
    Nat → Option (Option String × Option String) × Nat
  | 0 => (none, 0)
  | fuel + 1 =>
    let nw := details i
    if prev = nw then
      let r := fivetran_wait_loop prev details (i + 1) fuel
      (r.1, r.2 + 1)
    else (some nw, 1)

/-- `trigger_sync` with `wait_for_completion = true` after a successful
trigger call (fivetran_client.py lines 121-163): snapshot `details 0`, wait
for a change, then raise exit code 202 when `prev_failure` was set and the
new `failed_at` differs, or when `prev_failure` was unset and a `failed_at`
is now present; otherwise return normally.  Also returns the total number of
`_get_latest_success_and_failure` HTTP calls (snapshot included). -/
def trigger_sync_wait (details : Nat → Option String × Option String)
    (fuel : Nat) : Option (Except Nat Unit) × Nat :=
  let prev := details 0
  let r := fivetran_wait_loop prev details 1 fuel
  match r.1 with
  | none => (none, r.2 + 1)
  | some nw =>
    let newFailure : Bool :=
      match prev.2 with
      | some p => nw.2 ≠ some p
      | none => nw.2.isSome
    (some (if newFailure then .error EXIT_CODE_SYNC_REFRESH_ERROR
      else .ok ()), r.2 + 1)

/-- The wait loop stops at the first fetched pair that differs from the
snapshot, after exactly `t + 1` in-loop fetches. -/
theorem fivetran_wait_loop_first_change
    (prev : Option String × Option String)
    (details : Nat → Option String × Option String) :
    ∀ (t i fuel : Nat), (∀ j, i ≤ j → j < i + t → details j = prev) →
      details (i + t) ≠ prev → t < fuel →
      fivetran_wait_loop prev details i fuel =
        (some (details (i + t)), t + 1) := by
  intro t
  induction t with
  | zero =>
    intro i fuel hsame hdiff hf
    obtain ⟨f, rfl⟩ : ∃ f, fuel = f + 1 := ⟨fuel - 1, by omega⟩
    simp only [Nat.add_zero] at hdiff
    have : ¬ prev = details i := fun h => hdiff h.symm
    simp [fivetran_wait_loop, this]
  | succ t ih =>
    intro i fuel hsame hdiff hf
    obtain ⟨f, rfl⟩ : ∃ f, fuel = f + 1 := ⟨fuel - 1, by omega⟩
    have heq : prev = details i := (hsame i le_rfl (by omega)).symm
    have hrec := ih (i + 1) f
      (fun j hj1 hj2 => hsame j (by omega) (by omega))
      (by rw [show i + 1 + t = i + (t + 1) by omega]; exact hdiff)
      (by omega)
    simp only [fivetran_wait_loop, if_pos heq, hrec,
      show i + 1 + t = i + (t + 1) by omega, Prod.mk.injEq]

/-- C10: the Fivetran wait loop snapshots (succeeded_at, failed_at) before
triggering, polls until a fetch differs from the snapshot (making k in-loop
fetches when the k-th is the first to differ, so k+1 fetches in total), and
then fails with exit code 202 — `EXIT_CODE_SYNC_REFRESH_ERROR` — exactly
when the post-wait `failed_at` differs from the pre-trigger `failed_at`
(including changing from absent to set); when only `succeeded_at` changed it
returns normally. -/
theorem trigger_sync_failure_detection
    (details : Nat → Option String × Option String) (k fuel : Nat)
    (hk : 1 ≤ k)
    (hsame : ∀ j, 1 ≤ j → j < k → details j = details 0)
    (hdiff : details k ≠ details 0) (hf : k ≤ fuel) :
    (trigger_sync_wait details fuel).2 = k + 1 ∧
      (trigger_sync_wait details fuel).1 =
        some (if (details k).2 ≠ (details 0).2
          then Except.error EXIT_CODE_SYNC_REFRESH_ERROR else Except.ok ()) ∧
      EXIT_CODE_SYNC_REFRESH_ERROR = 202 := by
  have hloop := fivetran_wait_loop_first_change (details 0) details (k - 1) 1
    fuel (fun j hj1 hj2 => hsame j hj1 (by omega))
    (by rw [show 1 + (k - 1) = k by omega]; exact hdiff) (by omega)
  rw [show 1 + (k - 1) = k by omega] at hloop
  refine ⟨?_, ?_, rfl⟩
  · simp only [trigger_sync_wait, hloop]
    omega
  · simp only [trigger_sync_wait, hloop]
    rcases h0 : (details 0).2 with _ | p
    · rcases hk2 : (details k).2 with _ | q
      · simp
      · simp
    · rcases hk2 : (details k).2 with _ | q
      · simp
      · by_cases hpq : q = p
        · subst hpq
          simp
        · simp [hpq]

/-- The detail stream for the C10 witness: snapshot and first in-loop fetch
agree, the second in-loop fetch shows a newly set `failed_at`. -/
def c10_details : Nat → Option String × Option String
  | 0 => (some "s1", none)
  | 1 => (some "s1", none)
  | _ + 2 => (some "s1", some "f1")

/-- Witness for C10: a `failed_at` changing from absent to set raises exit
code 202, after 3 `_get_latest_success_and_failure` calls in total. -/
theorem trigger_sync_failure_detection_witness :
    (trigger_sync_wait c10_details 5).2 = 3 ∧
      (trigger_sync_wait c10_details 5).1 =
        some (Except.error EXIT_CODE_SYNC_REFRESH_ERROR) := by
  have h := trigger_sync_failure_detection c10_details 2 5 (by norm_num)
    (fun j hj1 hj2 => by
      have hj : j = 1 := by omega
      subst hj
      rfl)
    (by decide) (by norm_num)
  refine ⟨h.1, ?_⟩
  rw [h.2.1]
  simp [c10_details]

end Dot
